import Mathlib

/-!
Verification of the procedural-geometry and animation core of the holiday
3D photo-display app (src/components/Tree.tsx and the app shell).

The TypeScript source is embedded shallowly:

* `Math.random()` is modelled by an explicit stream `rnd : ℕ → ℝ` (or `ℕ → ℚ`
  for the purely rational fragments), with the hypothesis `0 ≤ rnd n < 1`
  where a statement needs it; each sampling site reads a fixed index of the
  stream, so one generated element owns a disjoint block of draws.
* `THREE.Vector3` becomes a `Vec3` structure; `Vector3.lerp`,
  `Vector3.normalize` and `Vector3.multiplyScalar` are spelled out on the
  components exactly as the library computes them.
* Geometry is over `ℝ` (with `Real.sqrt`, `Real.sin`, `Real.cos`, `π`);
  the per-frame interpolation and the gesture reducer, which the source
  performs with plain arithmetic and comparisons, are over `ℚ` and stay
  executable.
-/

namespace ChristmasTree

open Real

/-- The shape selector, from the TreeShape union type in the types module:
tree, snowman, reindeer, santa, real tree (cherry), diamond (crystal),
twin towers. -/
inductive TreeShape
  | tree
  | snowman
  | reindeer
  | santa
  | real_tree
  | diamond
  | twin_towers
deriving DecidableEq

/-- getShapeRadiusAtY from Tree.tsx: the silhouette radius of a shape at
height y.  Cone shapes share a linear taper, the snowman takes three sphere
cross-sections, santa and reindeer are three-band step functions. -/
noncomputable def getShapeRadiusAtY (y : ℝ) (shape : TreeShape) : ℝ :=
  match shape with
  | .tree | .real_tree | .diamond | .twin_towers =>
      max 0 (9 * (1 - (y + 9) / 18))
  | .snowman =>
      if y < -3 then
        max 0 (Real.sqrt (max 0 (4.5 * 4.5 - (y - (-6)) * (y - (-6)))))
      else if y < 3 then
        max 0 (Real.sqrt (max 0 (3.5 * 3.5 - (y - 0) * (y - 0))))
      else
        max 0 (Real.sqrt (max 0 (2.5 * 2.5 - (y - 5) * (y - 5))))
  | .santa =>
      if y < -2 then 5 else if y < 4 then 4 else 3
  | .reindeer =>
      if y < -2 then 3 else if y < 4 then 3.5 else 4

/-- The radius profile is nonnegative everywhere (every branch is a max with
0, a square root, or a positive constant). -/
theorem getShapeRadiusAtY_nonneg (y : ℝ) (s : TreeShape) :
    0 ≤ getShapeRadiusAtY y s := by
  cases s <;> simp only [getShapeRadiusAtY] <;>
    first
      | exact le_max_left 0 _
      | (split_ifs <;> first | exact le_max_left 0 _ | norm_num)

/-- C1, counterexample: the claim demands radius 0 at every height outside a
shape's defined bands, but the santa step profile still answers 3 at height
20 (above all of its bands), and the tree cone still answers 29/2 at height
-20 (below its base). -/
theorem c1_radius_zero_outside_cex :
    getShapeRadiusAtY 20 .santa = 3 ∧ getShapeRadiusAtY (-20) .tree = 29 / 2 := by
  constructor
  · simp only [getShapeRadiusAtY]
    norm_num
  · simp only [getShapeRadiusAtY]
    norm_num

/-- C1, amended: the radius profile is nonnegative for every shape at every
height, and `radiusAt(20, Tree) = 0`; the cone shapes (tree, cherry tree,
diamond, twin towers) return 0 everywhere above the apex height 9, and the
snowman returns 0 below -21/2 and above 15/2; but santa and reindeer are
total step functions that never return 0, and the cone profile grows again
below the base, so the vanishing-outside-the-extent clause only holds in
the upward direction for the cone shapes and for the snowman bands. -/
theorem c1_radius_profile :
    (∀ (y : ℝ) (s : TreeShape), 0 ≤ getShapeRadiusAtY y s)
    ∧ getShapeRadiusAtY 20 .tree = 0
    ∧ (∀ y : ℝ, 9 ≤ y →
        getShapeRadiusAtY y .tree = 0 ∧ getShapeRadiusAtY y .real_tree = 0
        ∧ getShapeRadiusAtY y .diamond = 0 ∧ getShapeRadiusAtY y .twin_towers = 0)
    ∧ (∀ y : ℝ, y ≤ -(21 / 2) → getShapeRadiusAtY y .snowman = 0)
    ∧ (∀ y : ℝ, 15 / 2 ≤ y → getShapeRadiusAtY y .snowman = 0) := by
  refine ⟨getShapeRadiusAtY_nonneg, ?_, ?_, ?_, ?_⟩
  · simp only [getShapeRadiusAtY]
    norm_num
  · intro y hy
    have hcone : max 0 (9 * (1 - (y + 9) / 18)) = 0 := by
      apply max_eq_left
      nlinarith
    exact ⟨hcone, hcone, hcone, hcone⟩
  · intro y hy
    have hb : y < -3 := by linarith
    have hz : (4.5 : ℝ) * 4.5 - (y - (-6)) * (y - (-6)) ≤ 0 := by nlinarith
    simp only [getShapeRadiusAtY, if_pos hb]
    rw [max_eq_left hz, Real.sqrt_zero]
    simp
  · intro y hy
    have hb1 : ¬ y < -3 := by linarith
    have hb2 : ¬ y < 3 := by linarith
    have hz : (2.5 : ℝ) * 2.5 - (y - 5) * (y - 5) ≤ 0 := by nlinarith
    simp only [getShapeRadiusAtY, if_neg hb1, if_neg hb2]
    rw [max_eq_left hz, Real.sqrt_zero]
    simp

/-- C1 witness: the amended theorem applied at sample heights. -/
theorem c1_radius_profile_witness :
    0 ≤ getShapeRadiusAtY 2 .snowman
    ∧ getShapeRadiusAtY 12 .tree = 0
    ∧ getShapeRadiusAtY (-11) .snowman = 0
    ∧ getShapeRadiusAtY 8 .snowman = 0 :=
  ⟨c1_radius_profile.1 2 .snowman,
   (c1_radius_profile.2.2.1 12 (by norm_num)).1,
   c1_radius_profile.2.2.2.1 (-11) (by norm_num),
   c1_radius_profile.2.2.2.2 8 (by norm_num)⟩

/-- One candidate of getRandomPointInSphere: the k-th iteration draws three
consecutive Math.random values and maps each through `x * 2 - 1`. -/
def sphereDraw (rnd : ℕ → ℚ) (k : ℕ) : ℚ × ℚ × ℚ :=
  (rnd (3 * k) * 2 - 1, rnd (3 * k + 1) * 2 - 1, rnd (3 * k + 2) * 2 - 1)

/-- The retry loop of getRandomPointInSphere (while safety-- greater 0):
fuel counts the remaining iterations, k the candidates consumed so far.
Returns the point together with the total number of candidate draws. -/
def getRandomPointInSphereGo (cy r : ℚ) (rnd : ℕ → ℚ) :
    ℕ → ℕ → (ℚ × ℚ × ℚ) × ℕ
  | 0, k => ((0, cy, 0), k)
  | fuel + 1, k =>
      let d := sphereDraw rnd k
      if d.1 * d.1 + d.2.1 * d.2.1 + d.2.2 * d.2.2 < 1 then
        ((d.1 * r, d.2.1 * r + cy, d.2.2 * r), k + 1)
      else
        getRandomPointInSphereGo cy r rnd fuel (k + 1)

/-- getRandomPointInSphere from Tree.tsx: rejection-sample the unit ball at
most 100 times, scale by r and recenter at height cy; on exhaustion fall
back to the center (0, cy, 0).  The second component records how many
candidate draws the call consumed. -/
def getRandomPointInSphere (cy r : ℚ) (rnd : ℕ → ℚ) : (ℚ × ℚ × ℚ) × ℕ :=
  getRandomPointInSphereGo cy r rnd 100 0

/-- Squared Euclidean distance on modelled Vector3 triples. -/
def distSqT (p q : ℚ × ℚ × ℚ) : ℚ :=
  (p.1 - q.1) ^ 2 + (p.2.1 - q.2.1) ^ 2 + (p.2.2 - q.2.2) ^ 2

theorem getRandomPointInSphereGo_spec (cy r : ℚ) (rnd : ℕ → ℚ) :
    ∀ fuel k, (getRandomPointInSphereGo cy r rnd fuel k).2 ≤ k + fuel
      ∧ distSqT (getRandomPointInSphereGo cy r rnd fuel k).1 (0, cy, 0) ≤ r ^ 2 := by
  intro fuel
  induction fuel with
  | zero =>
      intro k
      constructor
      · simp [getRandomPointInSphereGo]
      · simp [getRandomPointInSphereGo, distSqT]
        positivity
  | succ n ih =>
      intro k
      rw [getRandomPointInSphereGo]
      split_ifs with h
      · refine ⟨by omega, ?_⟩
        have hr2 : (0 : ℚ) ≤ r ^ 2 := by positivity
        simp only [distSqT]
        nlinarith [sq_nonneg (sphereDraw rnd k).1, sq_nonneg (sphereDraw rnd k).2.1,
          sq_nonneg (sphereDraw rnd k).2.2]
      · refine ⟨?_, (ih (k + 1)).2⟩
        have := (ih (k + 1)).1
        omega

/-- C2: for every center height and every radius at least 0, the sphere
sampler consumes at most 100 candidate draws, and the returned point
(fallback included) is within distance r of the center (0, cy, 0), stated
through the squared distance. -/
theorem c2_sphere_sampler (cy r : ℚ) (rnd : ℕ → ℚ) (hr : 0 ≤ r) :
    (getRandomPointInSphere cy r rnd).2 ≤ 100
    ∧ distSqT (getRandomPointInSphere cy r rnd).1 (0, cy, 0) ≤ r ^ 2 := by
  have h := getRandomPointInSphereGo_spec cy r rnd 100 0
  exact ⟨by simpa [getRandomPointInSphere] using h.1,
    by simpa [getRandomPointInSphere] using h.2⟩

/-- C2 witness: radius 1, center height 0, a stream that is constantly 1/2
(so the very first candidate (0,0,0) is accepted). -/
theorem c2_sphere_sampler_witness :
    (0 : ℚ) ≤ 1
    ∧ (getRandomPointInSphere 0 1 (fun _ => 1 / 2)).2 ≤ 100
    ∧ distSqT (getRandomPointInSphere 0 1 (fun _ => 1 / 2)).1 (0, 0, 0) ≤ 1 ^ 2 :=
  ⟨by norm_num, (c2_sphere_sampler 0 1 (fun _ => 1 / 2) (by norm_num)).1,
    (c2_sphere_sampler 0 1 (fun _ => 1 / 2) (by norm_num)).2⟩

/-- A THREE.Vector3 with rational components, for the per-frame
interpolation state. -/
structure Vec3Q where
  x : ℚ
  y : ℚ
  z : ℚ
deriving DecidableEq

/-- THREE.Vector3.lerp: each component moves toward the target by the
fraction alpha of the remaining difference. -/
def vlerp (p t : Vec3Q) (alpha : ℚ) : Vec3Q :=
  ⟨p.x + (t.x - p.x) * alpha, p.y + (t.y - p.y) * alpha, p.z + (t.z - p.z) * alpha⟩

/-- One useFrame update of a photo item position in Tree.tsx: the live
transform lerps toward the selected target with lerpFactor = delta * 2. -/
def animStep (delta : ℚ) (target p : Vec3Q) : Vec3Q :=
  vlerp p target (delta * 2)

/-- n repeated frame updates at the fixed frame time delta. -/
def animIter (delta : ℚ) (target : Vec3Q) : ℕ → Vec3Q → Vec3Q
  | 0, p => p
  | n + 1, p => animIter delta target n (animStep delta target p)

/-- Squared Euclidean distance between two animation transforms. -/
def distSqV (p q : Vec3Q) : ℚ :=
  (p.x - q.x) ^ 2 + (p.y - q.y) ^ 2 + (p.z - q.z) ^ 2

theorem animStep_sub (delta : ℚ) (target p : Vec3Q) :
    (target.x - (animStep delta target p).x) = (1 - 2 * delta) * (target.x - p.x)
    ∧ (target.y - (animStep delta target p).y) = (1 - 2 * delta) * (target.y - p.y)
    ∧ (target.z - (animStep delta target p).z) = (1 - 2 * delta) * (target.z - p.z) := by
  refine ⟨?_, ?_, ?_⟩ <;> simp only [animStep, vlerp] <;> ring

theorem animStep_distSq (delta : ℚ) (target p : Vec3Q) :
    distSqV (animStep delta target p) target
      = (1 - 2 * delta) ^ 2 * distSqV p target := by
  simp only [distSqV, animStep, vlerp]
  ring

theorem animIter_distSq (delta : ℚ) (target : Vec3Q) :
    ∀ (n : ℕ) (p : Vec3Q),
      distSqV (animIter delta target n p) target
        = ((1 - 2 * delta) ^ 2) ^ n * distSqV p target := by
  intro n
  induction n with
  | zero => intro p; simp [animIter]
  | succ m ih =>
      intro p
      rw [animIter, ih, animStep_distSq]
      ring

/-- C4 counterexample: the claim promises that from any starting pose within
the scene the distance to the target drops below 0.01 after 2 seconds of
60 fps steps; starting 10 units away (a routine scene distance, the
exploded scatter radius itself is 10 to 18) the squared distance after 120
steps of delta = 1/60 is 100 * (29/30) ^ 240, still far above 0.01 ^ 2. -/
theorem c4_convergence_cex :
    distSqV (animIter (1 / 60) ⟨0, 0, 0⟩ 120 ⟨10, 0, 0⟩) ⟨0, 0, 0⟩
      > (1 / 100) ^ 2 := by
  rw [animIter_distSq]
  have hd : distSqV ⟨10, 0, 0⟩ ⟨0, 0, 0⟩ = 100 := by
    simp [distSqV]
    norm_num
  rw [hd]
  norm_num

/-- C4, amended: each update scales every component of the offset to the
target by exactly the constant factor 1 - 2 * delta, hence the squared
distance by its square; for a fixed frame time 0 < delta < 1/2 the distance
to the target strictly decreases while it is nonzero; and after 2 seconds
of 60 fps-equivalent steps (120 steps of delta = 1/60) the distance is
below 0.01 provided the starting distance is at most 1/2 (not from an
arbitrary pose within the scene: the per-step factor is 29/30, which only
contracts by about 58x over 120 steps). -/
theorem c4_animation :
    (∀ (delta : ℚ) (target p : Vec3Q),
      distSqV (animStep delta target p) target
        = (1 - 2 * delta) ^ 2 * distSqV p target)
    ∧ (∀ (delta : ℚ) (target p : Vec3Q), 0 < delta → delta < 1 / 2 →
        distSqV p target ≠ 0 →
        distSqV (animStep delta target p) target < distSqV p target)
    ∧ (∀ (target p : Vec3Q), distSqV p target ≤ (1 / 2) ^ 2 →
        distSqV (animIter (1 / 60) target 120 p) target < (1 / 100) ^ 2) := by
  refine ⟨animStep_distSq, ?_, ?_⟩
  · intro delta target p h0 h2 hne
    rw [animStep_distSq]
    have hnn : (0 : ℚ) ≤ distSqV p target := by
      simp only [distSqV]
      positivity
    have hpos : 0 < distSqV p target := by
      rcases lt_or_eq_of_le hnn with h | h
      · exact h
      · exact absurd h.symm hne
    have hf : (1 - 2 * delta) ^ 2 < 1 := by nlinarith
    nlinarith
  · intro target p hle
    rw [animIter_distSq]
    have hpow : (((1 : ℚ) - 2 * (1 / 60)) ^ 2) ^ 120 < 1 / 2500 := by
      norm_num
    have h0 : (0 : ℚ) ≤ distSqV p target := by
      simp only [distSqV]
      positivity
    nlinarith

/-- C4 witness: the amended theorem applied at delta = 1/60, target the
origin, and a pose at distance 1/10. -/
theorem c4_animation_witness :
    ((0 : ℚ) < 1 / 60 ∧ (1 / 60 : ℚ) < 1 / 2
      ∧ distSqV ⟨1 / 10, 0, 0⟩ ⟨0, 0, 0⟩ ≠ 0
      ∧ distSqV (animStep (1 / 60) ⟨0, 0, 0⟩ ⟨1 / 10, 0, 0⟩) ⟨0, 0, 0⟩
          < distSqV ⟨1 / 10, 0, 0⟩ ⟨0, 0, 0⟩)
    ∧ (distSqV ⟨1 / 10, 0, 0⟩ ⟨0, 0, 0⟩ ≤ (1 / 2) ^ 2
      ∧ distSqV (animIter (1 / 60) ⟨0, 0, 0⟩ 120 ⟨1 / 10, 0, 0⟩) ⟨0, 0, 0⟩
          < (1 / 100) ^ 2) :=
  ⟨⟨by norm_num, by norm_num, by norm_num [distSqV],
    c4_animation.2.1 (1 / 60) ⟨0, 0, 0⟩ ⟨1 / 10, 0, 0⟩ (by norm_num) (by norm_num)
      (by norm_num [distSqV])⟩,
   ⟨by norm_num [distSqV],
    c4_animation.2.2 ⟨0, 0, 0⟩ ⟨1 / 10, 0, 0⟩ (by norm_num [distSqV])⟩⟩

/-- A THREE.Vector3 with real components, for the generated geometry. -/
structure Vec3 where
  x : ℝ
  y : ℝ
  z : ℝ

/-- Squared length of a vector. -/
noncomputable def vnormSq (v : Vec3) : ℝ :=
  v.x ^ 2 + v.y ^ 2 + v.z ^ 2

/-- Vector3.multiplyScalar. -/
noncomputable def vscale (s : ℝ) (v : Vec3) : Vec3 :=
  ⟨v.x * s, v.y * s, v.z * s⟩

/-- Vector3.normalize: divide each component by the length.  (THREE guards a
zero length by dividing by 1 instead; every call site below has positive
length, where the two agree.) -/
noncomputable def vnormalize (v : Vec3) : Vec3 :=
  ⟨v.x / Real.sqrt (vnormSq v), v.y / Real.sqrt (vnormSq v),
   v.z / Real.sqrt (vnormSq v)⟩

/-- The golden angle pi * (3 - sqrt 5) used by the spiral layouts. -/
noncomputable def goldenAngle : ℝ :=
  π * (3 - Real.sqrt 5)

/-- One computed photo placement: the assembled position, the assembled
orientation, and the exploded scatter position.  The source stores the
orientation as the Euler angles of a dummy Object3D after
lookAt(0, y, 0) followed by rotateY(pi); because the look target shares the
position's height, that orientation is a pure yaw, and it is recorded here
by its forward (+z) axis, the unit horizontal vector pointing from the
origin away through the position, negated by the half-turn. -/
structure SlotLayout where
  initialPos : Vec3
  initialRotFwd : Vec3
  explodedPos : Vec3

/-- The height of photo slot i of count: t * 14 - 7 with t = i / count. -/
noncomputable def slotHeight (count i : ℕ) : ℝ :=
  ((i : ℝ) / (count : ℝ)) * 14 - 7

/-- The assembled position of photo slot i: radius profile plus the 0.8
outward offset, at the golden-angle spiral angle i * goldenAngle * 10. -/
noncomputable def slotPosition (count : ℕ) (shape : TreeShape) (i : ℕ) : Vec3 :=
  let h := slotHeight count i
  let r := getShapeRadiusAtY h shape + 0.8
  let theta := (i : ℝ) * goldenAngle * 10
  ⟨r * Real.cos theta, h, r * Real.sin theta⟩

/-- The exploded position before the vertical jitter:
position.clone().normalize().multiplyScalar(10 + random * 8).  Slot i uses
the draws rnd (2i) and rnd (2i+1). -/
noncomputable def slotExplodedPre (count : ℕ) (shape : TreeShape)
    (rnd : ℕ → ℝ) (i : ℕ) : Vec3 :=
  vscale (10 + rnd (2 * i) * 8) (vnormalize (slotPosition count shape i))

/-- The full placement of photo slot i, from the layout memo in Tree.tsx. -/
noncomputable def layoutSlot (count : ℕ) (shape : TreeShape)
    (rnd : ℕ → ℝ) (i : ℕ) : SlotLayout :=
  let pos := slotPosition count shape i
  let pre := slotExplodedPre count shape rnd i
  let rho := Real.sqrt (pos.x ^ 2 + pos.z ^ 2)
  { initialPos := pos
    initialRotFwd := ⟨-(pos.x / rho), 0, -(pos.z / rho)⟩
    explodedPos := ⟨pre.x, pre.y + (rnd (2 * i + 1) - 0.5) * 10, pre.z⟩ }

/-- The slot count: photos.length when positive, else the 24 placeholder. -/
def layoutCount (photoCount : ℕ) : ℕ :=
  if photoCount > 0 then photoCount else 24

/-- The photo layout memo: one SlotLayout per index. -/
noncomputable def layout (photoCount : ℕ) (shape : TreeShape)
    (rnd : ℕ → ℝ) : List SlotLayout :=
  (List.range (layoutCount photoCount)).map
    (layoutSlot (layoutCount photoCount) shape rnd)

/-- C3: for a fixed photoCount and shape, two runs of the layout generator
with different random streams agree on the assembled position and the
assembled orientation at every index: both are pure functions of the index,
the slot count and the shape; only the exploded scatter draws on the
stream. -/
theorem c3_layout_deterministic (photoCount : ℕ) (shape : TreeShape)
    (rnd₁ rnd₂ : ℕ → ℝ) (i : ℕ) :
    (List.get? (layout photoCount shape rnd₁) i).map SlotLayout.initialPos
      = (List.get? (layout photoCount shape rnd₂) i).map SlotLayout.initialPos
    ∧ (List.get? (layout photoCount shape rnd₁) i).map SlotLayout.initialRotFwd
      = (List.get? (layout photoCount shape rnd₂) i).map SlotLayout.initialRotFwd := by
  by_cases hi : i < layoutCount photoCount
  · have hr : (List.range (layoutCount photoCount))[i]? = some i :=
      List.getElem?_range hi
    constructor <;>
      simp [layout, List.get?_map, hr, layoutSlot]
  · have hlen : ∀ rnd : ℕ → ℝ, List.get? (layout photoCount shape rnd) i = none := by
      intro rnd
      rw [List.get?_eq_none]
      simp only [layout, List.length_map, List.length_range]
      omega
    rw [hlen rnd₁, hlen rnd₂]
    exact ⟨rfl, rfl⟩

/-- C6: with an empty photo list the layout falls back to exactly 24
placeholder slots, and with a positive count it produces exactly that many
slots. -/
theorem c6_layout_count (photoCount : ℕ) (shape : TreeShape) (rnd : ℕ → ℝ) :
    (layout photoCount shape rnd).length
      = if photoCount = 0 then 24 else photoCount := by
  simp only [layout, List.length_map, List.length_range, layoutCount]
  split_ifs <;> omega

/-- The assembled position always has positive squared length: its
horizontal radius is at least the 0.8 offset. -/
theorem vnormSq_slotPosition_pos (count : ℕ) (shape : TreeShape) (i : ℕ) :
    0 < vnormSq (slotPosition count shape i) := by
  have hr : (0.8 : ℝ) ≤ getShapeRadiusAtY (slotHeight count i) shape + 0.8 := by
    have := getShapeRadiusAtY_nonneg (slotHeight count i) shape
    linarith
  have hsc : ((getShapeRadiusAtY (slotHeight count i) shape + 0.8)
        * Real.cos ((i : ℝ) * goldenAngle * 10)) ^ 2
      + ((getShapeRadiusAtY (slotHeight count i) shape + 0.8)
        * Real.sin ((i : ℝ) * goldenAngle * 10)) ^ 2
      = (getShapeRadiusAtY (slotHeight count i) shape + 0.8) ^ 2 := by
    have h := Real.sin_sq_add_cos_sq ((i : ℝ) * goldenAngle * 10)
    nlinarith [h]
  simp only [vnormSq, slotPosition]
  nlinarith [sq_nonneg (slotHeight count i), hsc, hr]

/-- Scaling the normalization of a vector of positive length by s gives a
vector of squared length exactly s squared. -/
theorem vnormSq_scale_normalize (v : Vec3) (s : ℝ) (hv : 0 < vnormSq v) :
    vnormSq (vscale s (vnormalize v)) = s ^ 2 := by
  have hL : Real.sqrt (vnormSq v) ^ 2 = vnormSq v := Real.sq_sqrt (le_of_lt hv)
  have hLpos : 0 < Real.sqrt (vnormSq v) := Real.sqrt_pos.mpr hv
  have hLne : Real.sqrt (vnormSq v) ≠ 0 := ne_of_gt hLpos
  simp only [vnormSq, vscale, vnormalize] at *
  field_simp
  nlinarith [hL]

/-- C10: each photo slot's exploded scatter position is the unit vector of
its assembled position scaled by a factor in [10, 18), plus a vertical
jitter in [-5, 5]; before the jitter the exploded point has squared
distance exactly the square of that factor from the origin, hence at least
100 (outside every silhouette, whose radii stay at or below 9). -/
theorem c10_exploded_scatter (photoCount : ℕ) (shape : TreeShape)
    (rnd : ℕ → ℝ) (i : ℕ) (slot : SlotLayout)
    (hrnd : ∀ n, 0 ≤ rnd n ∧ rnd n < 1)
    (hget : List.get? (layout photoCount shape rnd) i = some slot) :
    ∃ s j : ℝ, 10 ≤ s ∧ s < 18 ∧ -5 ≤ j ∧ j ≤ 5
      ∧ slot.explodedPos = ⟨(vscale s (vnormalize slot.initialPos)).x,
          (vscale s (vnormalize slot.initialPos)).y + j,
          (vscale s (vnormalize slot.initialPos)).z⟩
      ∧ vnormSq (vscale s (vnormalize slot.initialPos)) = s ^ 2
      ∧ 100 ≤ vnormSq (vscale s (vnormalize slot.initialPos)) := by
  have hi : i < layoutCount photoCount := by
    by_contra hcon
    rw [List.get?_eq_none.mpr ?_] at hget
    · exact Option.noConfusion hget
    · simp only [layout, List.length_map, List.length_range]
      omega
  have hslot : slot = layoutSlot (layoutCount photoCount) shape rnd i := by
    rw [layout] at hget
    rw [List.get?_map, List.get?_range hi] at hget
    simpa using hget.symm
  subst hslot
  refine ⟨10 + rnd (2 * i) * 8, (rnd (2 * i + 1) - 0.5) * 10, ?_, ?_, ?_, ?_, ?_, ?_, ?_⟩
  · have := (hrnd (2 * i)).1
    linarith
  · have := (hrnd (2 * i)).2
    linarith
  · have := (hrnd (2 * i + 1)).1
    linarith
  · have := (hrnd (2 * i + 1)).2
    linarith
  · simp [layoutSlot, slotExplodedPre]
  · exact vnormSq_scale_normalize _ _
      (by simpa [layoutSlot] using vnormSq_slotPosition_pos (layoutCount photoCount) shape i)
  · rw [vnormSq_scale_normalize _ _
      (by simpa [layoutSlot] using vnormSq_slotPosition_pos (layoutCount photoCount) shape i)]
    have := (hrnd (2 * i)).1
    nlinarith

/-- C10 witness: the theorem applied to slot 0 of a single-photo layout on
the tree shape with the constant-zero stream. -/
theorem c10_exploded_scatter_witness :
    ∃ s j : ℝ, 10 ≤ s ∧ s < 18 ∧ -5 ≤ j ∧ j ≤ 5
      ∧ (layoutSlot (layoutCount 1) .tree (fun _ => 0) 0).explodedPos
        = ⟨(vscale s (vnormalize (layoutSlot (layoutCount 1) .tree (fun _ => 0) 0).initialPos)).x,
           (vscale s (vnormalize (layoutSlot (layoutCount 1) .tree (fun _ => 0) 0).initialPos)).y + j,
           (vscale s (vnormalize (layoutSlot (layoutCount 1) .tree (fun _ => 0) 0).initialPos)).z⟩
      ∧ vnormSq (vscale s (vnormalize (layoutSlot (layoutCount 1) .tree (fun _ => 0) 0).initialPos)) = s ^ 2
      ∧ 100 ≤ vnormSq (vscale s (vnormalize (layoutSlot (layoutCount 1) .tree (fun _ => 0) 0).initialPos)) :=
  c10_exploded_scatter 1 .tree (fun _ => 0) 0 _
    (fun _ => ⟨le_refl 0, by norm_num⟩)
    (by simp [layout, List.get?_map, List.get?_range, layoutCount])

/-- The random height draw of tree body sample i: h = random * height with
height = 18.  Sample i owns the draw block rnd (4i) .. rnd (4i+3). -/
noncomputable def treeSampleH (rnd : ℕ → ℝ) (i : ℕ) : ℝ :=
  rnd (4 * i) * 18

/-- The boundary radius at the sampled height: radiusBottom * (1 - progress)
with radiusBottom = 8 and progress = h / height. -/
noncomputable def treeSampleRMax (rnd : ℕ → ℝ) (i : ℕ) : ℝ :=
  8 * (1 - treeSampleH rnd i / 18)

/-- The blended radius draw of the tree / twin towers body: with probability
0.4 the linear inner-core branch r = rMax * random * 0.5, otherwise the
uniform-disk branch r = rMax * sqrt random. -/
noncomputable def treeSampleR (rnd : ℕ → ℝ) (i : ℕ) : ℝ :=
  if rnd (4 * i + 1) < 0.4 then
    treeSampleRMax rnd i * rnd (4 * i + 2) * 0.5
  else
    treeSampleRMax rnd i * Real.sqrt (rnd (4 * i + 2))

/-- Sample i of the tree body cloud: polar placement at a uniform angle,
recentered vertically by - height / 2. -/
noncomputable def treePoint (rnd : ℕ → ℝ) (i : ℕ) : Vec3 :=
  ⟨treeSampleR rnd i * Real.cos (rnd (4 * i + 3) * (2 * π)),
   treeSampleH rnd i - 9,
   treeSampleR rnd i * Real.sin (rnd (4 * i + 3) * (2 * π))⟩

/-- The particle cloud for shape tree, style classic: the tree is in the
high-density set, so effectiveLeafCount = 15000. -/
noncomputable def treeClassicCloud (rnd : ℕ → ℝ) : List Vec3 :=
  (List.range 15000).map (treePoint rnd)

/-- C5: the tree / classic generator yields a non-empty cloud of 15000
points (within the claimed 5000 to 15000 band); every point has its
y-coordinate in [-9, 9] and its squared horizontal radius bounded by the
squared radius profile at that height; and the radius of each sample comes
from the blended scheme: below the 0.4 mode draw the linear inner-core
branch (at most half the boundary radius), otherwise the sqrt branch up to
the boundary radius. -/
theorem c5_tree_classic_cloud (rnd : ℕ → ℝ)
    (hrnd : ∀ n, 0 ≤ rnd n ∧ rnd n < 1) :
    ((treeClassicCloud rnd).length = 15000
      ∧ 5000 ≤ (treeClassicCloud rnd).length
      ∧ (treeClassicCloud rnd).length ≤ 15000)
    ∧ (∀ (i : ℕ) (p : Vec3), List.get? (treeClassicCloud rnd) i = some p →
        (-9 ≤ p.y ∧ p.y ≤ 9)
        ∧ p.x ^ 2 + p.z ^ 2 ≤ getShapeRadiusAtY p.y .tree ^ 2
        ∧ (rnd (4 * i + 1) < 0.4 →
            treeSampleR rnd i = treeSampleRMax rnd i * rnd (4 * i + 2) * 0.5
            ∧ treeSampleR rnd i ≤ treeSampleRMax rnd i * 0.5)
        ∧ (¬ rnd (4 * i + 1) < 0.4 →
            treeSampleR rnd i = treeSampleRMax rnd i * Real.sqrt (rnd (4 * i + 2)))) := by
  constructor
  · refine ⟨?_, ?_, ?_⟩ <;> simp [treeClassicCloud]
  · intro i p hget
    have hi : i < 15000 := by
      by_contra hcon
      rw [List.get?_eq_none.mpr ?_] at hget
      · exact Option.noConfusion hget
      · simp only [treeClassicCloud, List.length_map, List.length_range]
        omega
    have hp : p = treePoint rnd i := by
      rw [treeClassicCloud, List.get?_map, List.get?_eq_getElem?,
        List.getElem?_range hi] at hget
      simpa using hget.symm
    subst hp
    have hh0 : 0 ≤ treeSampleH rnd i := by
      have := (hrnd (4 * i)).1
      simp only [treeSampleH]
      nlinarith
    have hh18 : treeSampleH rnd i < 18 := by
      have := (hrnd (4 * i)).2
      simp only [treeSampleH]
      nlinarith
    have hrmax0 : 0 ≤ treeSampleRMax rnd i := by
      simp only [treeSampleRMax]
      nlinarith
    have hr0 : 0 ≤ treeSampleR rnd i := by
      simp only [treeSampleR]
      split_ifs
      · have := (hrnd (4 * i + 2)).1
        nlinarith
      · have := Real.sqrt_nonneg (rnd (4 * i + 2))
        nlinarith
    have hrle : treeSampleR rnd i ≤ treeSampleRMax rnd i := by
      simp only [treeSampleR]
      split_ifs
      · have h2 := (hrnd (4 * i + 2)).2
        have h1 := (hrnd (4 * i + 2)).1
        nlinarith
      · have hs1 : Real.sqrt (rnd (4 * i + 2)) ≤ 1 := by
          rw [show (1 : ℝ) = Real.sqrt 1 from (Real.sqrt_one).symm]
          exact Real.sqrt_le_sqrt (le_of_lt (hrnd (4 * i + 2)).2)
        have hs0 : 0 ≤ Real.sqrt (rnd (4 * i + 2)) := Real.sqrt_nonneg _
        nlinarith
    refine ⟨⟨?_, ?_⟩, ?_, ?_, ?_⟩
    · simp only [treePoint]
      linarith
    · simp only [treePoint]
      linarith
    · have hprof : getShapeRadiusAtY (treePoint rnd i).y .tree
          = 9 * (1 - treeSampleH rnd i / 18) := by
        simp only [treePoint, getShapeRadiusAtY]
        rw [max_eq_right]
        · ring_nf
        · nlinarith
      rw [hprof]
      have hxz : (treePoint rnd i).x ^ 2 + (treePoint rnd i).z ^ 2
          = treeSampleR rnd i ^ 2 := by
        simp only [treePoint]
        have h := Real.sin_sq_add_cos_sq (rnd (4 * i + 3) * (2 * π))
        nlinarith [h]
      rw [hxz]
      have h89 : treeSampleRMax rnd i ≤ 9 * (1 - treeSampleH rnd i / 18) := by
        simp only [treeSampleRMax]
        nlinarith
      nlinarith
    · intro hmode
      refine ⟨by simp only [treeSampleR, if_pos hmode], ?_⟩
      simp only [treeSampleR, if_pos hmode]
      have h1 := (hrnd (4 * i + 2)).1
      have h2 := (hrnd (4 * i + 2)).2
      nlinarith
    · intro hmode
      simp only [treeSampleR, if_neg hmode]

/-- C5 witness: the theorem applied to the constant-zero stream; sample 0
lands at height -9 with zero radius, in the linear branch. -/
theorem c5_tree_classic_cloud_witness :
    (treeClassicCloud (fun _ => 0)).length = 15000
    ∧ (-9 ≤ (treePoint (fun _ => 0) 0).y ∧ (treePoint (fun _ => 0) 0).y ≤ 9)
      ∧ (treePoint (fun _ => 0) 0).x ^ 2 + (treePoint (fun _ => 0) 0).z ^ 2
          ≤ getShapeRadiusAtY (treePoint (fun _ => 0) 0).y .tree ^ 2 :=
  have hz : ∀ n : ℕ, 0 ≤ (0 : ℝ) ∧ (0 : ℝ) < 1 := fun _ => ⟨le_refl 0, by norm_num⟩
  have hmain := c5_tree_classic_cloud (fun _ => 0) hz
  have hpt := hmain.2 0 (treePoint (fun _ => 0) 0)
    (by simp [treeClassicCloud, List.get?_map, List.getElem?_range])
  ⟨hmain.1.1, hpt.1, hpt.2.1⟩

/-- Math.atan2 y x, modelled as the argument of the complex number
x + y i (both have range (-pi, pi] and agree at the origin). -/
noncomputable def atan2 (y x : ℝ) : ℝ :=
  Complex.arg ⟨x, y⟩

/-- The bauble palette, with the green entry swapped for blue in silver
mode. -/
def baublePalette (isSilver : Bool) : List String :=
  if isSilver then ["#ef4444", "#C0C0C0", "#3b82f6", "#ffffff"]
  else ["#ef4444", "#FFD700", "#22c55e"]

/-- The cherry flower palette. -/
def flowerPalette : List String :=
  ["#ec4899", "#fbcfe8", "#ffffff"]

/-- The two gift-box colors. -/
def giftPalette : List String :=
  ["#8b5cf6", "#ec4899"]

/-- Default for an out-of-range palette index (unreachable for draws in
[0, 1)). -/
def fallbackColor : String :=
  ""

/-- palette[Math.floor(u * palette.length)]. -/
noncomputable def paletteAt (pal : List String) (u : ℝ) : String :=
  pal.getD (Int.toNat ⌊u * (pal.length : ℝ)⌋) fallbackColor

/-- What one iteration of the decoration loop appends: a bauble, a gift, a
flower, or nothing (the diamond branch is an explicit pass; its decor lives
in the dedicated Diamonds / Pearls components). -/
inductive DecorPush
  | bauble (position : Vec3) (color : String) (scale : ℝ)
  | gift (position : Vec3) (color : String) (scale : ℝ) (rotation : Vec3)
  | flower (position : Vec3) (color : String) (scale : ℝ) (rotation : Vec3)
  | skip

def asBauble : DecorPush → Option (Vec3 × String × ℝ)
  | .bauble p c s => some (p, c, s)
  | _ => none

def asGift : DecorPush → Option (Vec3 × String × ℝ × Vec3)
  | .gift p c s r => some (p, c, s, r)
  | _ => none

def asFlower : DecorPush → Option (Vec3 × String × ℝ × Vec3)
  | .flower p c s r => some (p, c, s, r)
  | _ => none

/-- Iteration i of the decoration loop.  Each iteration owns the draw block
rnd (8i) .. rnd (8i+7): the base scale is draw 0; the cherry branch redraws
the scale (draw 1) and a flower color (draw 2); the generic branch draws
height (draw 1), angle (draw 2), the 70/30 bauble-vs-gift split (draw 3), a
palette index (draw 4) and a gift rotation (draws 5, 6). -/
noncomputable def decorItem (shape : TreeShape) (isSilver : Bool)
    (rnd : ℕ → ℝ) (count i : ℕ) : DecorPush :=
  match shape with
  | .real_tree =>
      let y := -7.5 + ((i : ℝ) / ((count : ℝ) - 1)) * 15
      let rBase := 8 * (1 - (y + 9) / 18) + 1.0
      let r := rBase * 1.1
      let theta := (i : ℝ) * goldenAngle * 3
      let pos : Vec3 := ⟨r * Real.cos theta, y, r * Real.sin theta⟩
      .flower pos (paletteAt flowerPalette (rnd (8 * i + 2)))
        (0.8 + rnd (8 * i + 1) * 0.5) ⟨0, atan2 pos.x pos.z, 0⟩
  | .diamond => .skip
  | _ =>
      let scale := 0.2 + rnd (8 * i) * 0.3
      let h := rnd (8 * i + 1) * 18
      let rBase := 8 * (1 - h / 18)
      let r := rBase * 0.9
      let theta := rnd (8 * i + 2) * (2 * π)
      let pos : Vec3 := ⟨r * Real.cos theta, h - 9, r * Real.sin theta⟩
      if rnd (8 * i + 3) > 0.3 then
        .bauble pos (paletteAt (baublePalette isSilver) (rnd (8 * i + 4))) scale
      else
        .gift pos (paletteAt giftPalette (rnd (8 * i + 4))) scale
          ⟨rnd (8 * i + 5), rnd (8 * i + 6), 0⟩

/-- Which shapes enter the decoration loop at all. -/
def supportsDecor : TreeShape → Bool
  | .tree | .real_tree | .diamond | .twin_towers => true
  | _ => false

/-- The decoration count: 24 for the cherry tree, 80 for the diamond, 200
otherwise. -/
def decorCount (shape : TreeShape) : ℕ :=
  if shape = .real_tree then 24 else if shape = .diamond then 80 else 200

/-- The five lists returned by the decorations memo (ribbons and
geometricDecors are declared but never filled by this generator). -/
structure Decorations where
  baubles : List (Vec3 × String × ℝ)
  gifts : List (Vec3 × String × ℝ × Vec3)
  ribbons : List Vec3
  flowers : List (Vec3 × String × ℝ × Vec3)
  geometricDecors : List Vec3

/-- The decorations memo from Tree.tsx: empty everything unless the shape
supports decor, else run the loop and collect by kind. -/
noncomputable def decorations (shape : TreeShape) (isSilver : Bool)
    (rnd : ℕ → ℝ) : Decorations :=
  if supportsDecor shape then
    { baubles := (List.range (decorCount shape)).filterMap
        (fun i => asBauble (decorItem shape isSilver rnd (decorCount shape) i))
      gifts := (List.range (decorCount shape)).filterMap
        (fun i => asGift (decorItem shape isSilver rnd (decorCount shape) i))
      ribbons := []
      flowers := (List.range (decorCount shape)).filterMap
        (fun i => asFlower (decorItem shape isSilver rnd (decorCount shape) i))
      geometricDecors := [] }
  else ⟨[], [], [], [], []⟩

theorem length_filterMap_partition {α β γ : Type} (f : α → Option β)
    (g : α → Option γ) :
    ∀ l : List α,
      (∀ a ∈ l, ((f a).isSome ∧ g a = none) ∨ (f a = none ∧ (g a).isSome)) →
      (l.filterMap f).length + (l.filterMap g).length = l.length := by
  intro l
  induction l with
  | nil => simp
  | cons a t ih =>
      intro h
      have ht := ih (fun x hx => h x (List.mem_cons_of_mem a hx))
      rcases h a (List.mem_cons_self a t) with ⟨hf, hg⟩ | ⟨hf, hg⟩
      · obtain ⟨b, hb⟩ := Option.isSome_iff_exists.mp hf
        simp only [List.filterMap_cons, hb, hg, List.length_cons]
        omega
      · obtain ⟨c, hc⟩ := Option.isSome_iff_exists.mp hg
        simp only [List.filterMap_cons, hc, hf, List.length_cons]
        omega

theorem length_filterMap_all_some {α β : Type} (f : α → Option β) :
    ∀ l : List α, (∀ a ∈ l, (f a).isSome) →
      (l.filterMap f).length = l.length := by
  intro l
  induction l with
  | nil => simp
  | cons a t ih =>
      intro h
      obtain ⟨b, hb⟩ := Option.isSome_iff_exists.mp (h a (List.mem_cons_self a t))
      simp only [List.filterMap_cons, hb, List.length_cons]
      exact congrArg Nat.succ (ih (fun x hx => h x (List.mem_cons_of_mem a hx)))

/-- The diamond branch of the decoration loop is a pass: every list comes
back empty. -/
theorem decorations_diamond_empty (isSilver : Bool) (rnd : ℕ → ℝ) :
    decorations .diamond isSilver rnd = ⟨[], [], [], [], []⟩ := by
  simp only [decorations, supportsDecor, if_pos]
  have hb : ∀ i ∈ List.range (decorCount .diamond),
      asBauble (decorItem .diamond isSilver rnd (decorCount .diamond) i) = none :=
    fun i _ => rfl
  have hg : ∀ i ∈ List.range (decorCount .diamond),
      asGift (decorItem .diamond isSilver rnd (decorCount .diamond) i) = none :=
    fun i _ => rfl
  have hf : ∀ i ∈ List.range (decorCount .diamond),
      asFlower (decorItem .diamond isSilver rnd (decorCount .diamond) i) = none :=
    fun i _ => rfl
  rw [List.filterMap_eq_nil.mpr hb, List.filterMap_eq_nil.mpr hg,
    List.filterMap_eq_nil.mpr hf]

/-- C7 counterexample: the claim includes Crystal (diamond) among the shapes
with non-empty decoration output, but the decorations memo returns all five
lists empty for the diamond (its loop body is an explicit pass). -/
theorem c7_diamond_empty_cex :
    decorations .diamond false (fun _ => 0) = ⟨[], [], [], [], []⟩ :=
  decorations_diamond_empty false (fun _ => 0)

/-- C7, amended: the decoration generator returns non-empty lists for
exactly tree, cherry tree and twin towers (tree and twin towers fill
baubles plus gifts to a total of 200, the cherry tree fills 24 flowers);
the diamond passes the capability gate but pushes nothing, and every
non-capable shape (snowman, santa, reindeer) returns all-empty lists;
ribbons and geometric decors are always empty. -/
theorem c7_decorations (isSilver : Bool) (rnd : ℕ → ℝ) :
    (∀ shape : TreeShape,
      shape = .snowman ∨ shape = .santa ∨ shape = .reindeer →
      decorations shape isSilver rnd = ⟨[], [], [], [], []⟩)
    ∧ decorations .diamond isSilver rnd = ⟨[], [], [], [], []⟩
    ∧ (∀ shape : TreeShape, shape = .tree ∨ shape = .twin_towers →
        (decorations shape isSilver rnd).baubles.length
          + (decorations shape isSilver rnd).gifts.length = 200
        ∧ (decorations shape isSilver rnd).flowers = [])
    ∧ (decorations .real_tree isSilver rnd).flowers.length = 24
    ∧ (decorations .real_tree isSilver rnd).baubles = []
    ∧ (decorations .real_tree isSilver rnd).gifts = []
    ∧ (∀ shape : TreeShape, (decorations shape isSilver rnd).ribbons = []
        ∧ (decorations shape isSilver rnd).geometricDecors = []) := by
  refine ⟨?_, decorations_diamond_empty isSilver rnd, ?_, ?_, ?_, ?_, ?_⟩
  · rintro shape (rfl | rfl | rfl) <;> simp [decorations, supportsDecor]
  · rintro shape (rfl | rfl) <;>
    · constructor
      · simp only [decorations, supportsDecor, if_pos]
        rw [length_filterMap_partition _ _ _ ?_]
        · simp [decorCount]
        · intro i _
          simp only [decorItem]
          split_ifs <;> simp [asBauble, asGift]
      · simp only [decorations, supportsDecor, if_pos]
        rw [List.filterMap_eq_nil.mpr ?_]
        intro i _
        simp only [decorItem]
        split_ifs <;> simp [asFlower]
  · simp only [decorations, supportsDecor, if_pos]
    rw [length_filterMap_all_some _ _ ?_]
    · simp [decorCount]
    · intro i _
      simp [decorItem, asFlower]
  · simp only [decorations, supportsDecor, if_pos]
    rw [List.filterMap_eq_nil.mpr ?_]
    intro i _
    simp [decorItem, asBauble]
  · simp only [decorations, supportsDecor, if_pos]
    rw [List.filterMap_eq_nil.mpr ?_]
    intro i _
    simp [decorItem, asGift]
  · intro shape
    by_cases h : supportsDecor shape = true <;>
      simp [decorations, h]

/-- C7 witness: the amended theorem applied to the snowman (all empty) and
the tree (exactly 200 baubles plus gifts) with the constant-zero stream. -/
theorem c7_decorations_witness :
    decorations .snowman false (fun _ => 0) = ⟨[], [], [], [], []⟩
    ∧ (decorations .tree false (fun _ => 0)).baubles.length
        + (decorations .tree false (fun _ => 0)).gifts.length = 200 :=
  ⟨(c7_decorations false (fun _ => 0)).1 .snowman (Or.inl rfl),
   ((c7_decorations false (fun _ => 0)).2.2.1 .tree (Or.inl rfl)).1⟩

/-- hBase of pearl i: the linear spiral descends from 9 to -9 as
t = i / totalPerStrand runs over [0, 1), totalPerStrand = 6 loops * 200. -/
noncomputable def pearlBaseHeight (i : ℕ) : ℝ :=
  9 - ((i : ℝ) / 1200) * 18

/-- The cone radius at a pearl height: max(0.2, 9 * (1 - progress)) with
progress = (h + 9) / 18. -/
noncomputable def pearlConeRadius (h : ℝ) : ℝ :=
  max 0.2 (9 * (1 - (h + 9) / 18))

/-- The spiral angle of pearl i: t * loops * pi * 2 (the single strand has
offset 0). -/
noncomputable def pearlAngle (i : ℕ) : ℝ :=
  ((i : ℝ) / 1200) * 6 * π * 2

/-- The draping modulation: (sin(angle * drapeFreq) + 1) / 2 with
drapeFreq = 12. -/
noncomputable def pearlDrapePhase (i : ℕ) : ℝ :=
  (Real.sin (pearlAngle i * 12) + 1) / 2

/-- Pearl i of the draped garland: the base spiral bulges out by
(1 - drapePhase) * 0.5 and drops down by (1 - drapePhase) * 0.8, then a
small jitter (draws 4i .. 4i+2) and a random scale (draw 4i+3) apply. -/
noncomputable def pearl (rnd : ℕ → ℝ) (i : ℕ) : Vec3 × ℝ :=
  let hBase := pearlBaseHeight i
  let rCone := pearlConeRadius hBase
  let angle := pearlAngle i
  let drapePhase := pearlDrapePhase i
  let rOffset := (1 - drapePhase) * 0.5
  let hOffset := (1 - drapePhase) * 0.8
  let r := rCone + rOffset + 0.2
  let h := hBase - hOffset
  (⟨r * Real.cos angle + (rnd (4 * i) - 0.5) * 0.05,
    h + (rnd (4 * i + 1) - 0.5) * 0.05,
    r * Real.sin angle + (rnd (4 * i + 2) - 0.5) * 0.05⟩,
   0.1 + rnd (4 * i + 3) * 0.1)

/-- pearlsData from the Pearls component: 1200 pearls for the diamond
shape, nothing otherwise. -/
noncomputable def pearlsData (shape : TreeShape) (rnd : ℕ → ℝ) :
    List (Vec3 × ℝ) :=
  if shape = .diamond then (List.range 1200).map (pearl rnd) else []

/-- C8: every pearl of the diamond garland satisfies the draping equations
of the spec: drapePhase = (sin(angle * 12) + 1) / 2 lies in [0, 1] for the
spiral angle angle = (i / 1200) * 6 * 2 pi; the pre-jitter radial distance
is coneRadius(hBase) + 0.2 + (1 - drapePhase) * 0.5 and the pre-jitter
height is hBase - (1 - drapePhase) * 0.8, where hBase = 9 - (i / 1200) * 18
and coneRadius(h) = max(0.2, 9 * (1 - (h + 9) / 18)). -/
theorem c8_pearls_drape (rnd : ℕ → ℝ) (i : ℕ) (pr : Vec3 × ℝ)
    (hget : List.get? (pearlsData .diamond rnd) i = some pr) :
    0 ≤ pearlDrapePhase i ∧ pearlDrapePhase i ≤ 1
    ∧ pearlAngle i = ((i : ℝ) / 1200) * 6 * (2 * π)
    ∧ pearlDrapePhase i = (Real.sin (pearlAngle i * 12) + 1) / 2
    ∧ pearlBaseHeight i = 9 - ((i : ℝ) / 1200) * 18
    ∧ pearlConeRadius (pearlBaseHeight i)
        = max 0.2 (9 * (1 - (pearlBaseHeight i + 9) / 18))
    ∧ pr.1.x = (pearlConeRadius (pearlBaseHeight i) + 0.2
          + (1 - pearlDrapePhase i) * 0.5) * Real.cos (pearlAngle i)
        + (rnd (4 * i) - 0.5) * 0.05
    ∧ pr.1.y = (pearlBaseHeight i - (1 - pearlDrapePhase i) * 0.8)
        + (rnd (4 * i + 1) - 0.5) * 0.05
    ∧ pr.1.z = (pearlConeRadius (pearlBaseHeight i) + 0.2
          + (1 - pearlDrapePhase i) * 0.5) * Real.sin (pearlAngle i)
        + (rnd (4 * i + 2) - 0.5) * 0.05 := by
  have hi : i < 1200 := by
    by_contra hcon
    rw [List.get?_eq_none.mpr ?_] at hget
    · exact Option.noConfusion hget
    · simp only [pearlsData, if_pos rfl, List.length_map, List.length_range,
        if_true]
      omega
  have hp : pr = pearl rnd i := by
    rw [pearlsData, if_pos rfl, List.get?_map, List.get?_eq_getElem?,
      List.getElem?_range hi] at hget
    simpa using hget.symm
  subst hp
  have hs1 := Real.sin_le_one (pearlAngle i * 12)
  have hs2 := Real.neg_one_le_sin (pearlAngle i * 12)
  refine ⟨?_, ?_, ?_, rfl, rfl, rfl, ?_, ?_, ?_⟩
  · simp only [pearlDrapePhase]
    linarith
  · simp only [pearlDrapePhase]
    linarith
  · simp only [pearlAngle]
    ring
  all_goals simp only [pearl]
  all_goals try ring

/-- C8 witness: the theorem applied to pearl 0 with the constant-zero
stream. -/
theorem c8_pearls_drape_witness :
    0 ≤ pearlDrapePhase 0 ∧ pearlDrapePhase 0 ≤ 1
    ∧ pearlAngle 0 = ((0 : ℕ) : ℝ) / 1200 * 6 * (2 * π)
    ∧ pearlDrapePhase 0 = (Real.sin (pearlAngle 0 * 12) + 1) / 2
    ∧ pearlBaseHeight 0 = 9 - ((0 : ℕ) : ℝ) / 1200 * 18
    ∧ pearlConeRadius (pearlBaseHeight 0)
        = max 0.2 (9 * (1 - (pearlBaseHeight 0 + 9) / 18))
    ∧ (pearl (fun _ => 0) 0).1.x = (pearlConeRadius (pearlBaseHeight 0) + 0.2
          + (1 - pearlDrapePhase 0) * 0.5) * Real.cos (pearlAngle 0)
        + ((0 : ℝ) - 0.5) * 0.05
    ∧ (pearl (fun _ => 0) 0).1.y
        = (pearlBaseHeight 0 - (1 - pearlDrapePhase 0) * 0.8)
        + ((0 : ℝ) - 0.5) * 0.05
    ∧ (pearl (fun _ => 0) 0).1.z = (pearlConeRadius (pearlBaseHeight 0) + 0.2
          + (1 - pearlDrapePhase 0) * 0.5) * Real.sin (pearlAngle 0)
        + ((0 : ℝ) - 0.5) * 0.05 :=
  c8_pearls_drape (fun _ => 0) 0 (pearl (fun _ => 0) 0)
    (by simp [pearlsData, List.get?_map, List.get?_eq_getElem?,
      List.getElem?_range])

/-- The gesture labels from the types module. -/
inductive GestureType
  | open_palm
  | victory
  | closed_fist
  | none
deriving DecidableEq

/-- The application modes from the types module. -/
inductive AppMode
  | tree
  | focus
  | album
deriving DecidableEq

/-- A photo slot record (id, url, version, empty flag). -/
structure PhotoData where
  id : String
  url : String
  version : ℕ
  isEmpty : Bool
deriving DecidableEq

/-- The state writes one call of handleGesture performs; a None field means
the corresponding setter is not called.  (The Date.now based disco color
cycling inside the Closed_Fist branch touches no gesture state and is not
modelled.) -/
structure GestureEffects where
  setExploded : Option Bool
  setTwinkling : Option Bool
  focusRequest : Option PhotoData
  setMode : Option AppMode
  gestureX : ℚ
  lastGesture : GestureType
deriving DecidableEq

/-- handleGesture from the app shell: Open_Palm explodes (and releasing it
re-assembles), Closed_Fist twinkles and spins fast, Victory on a rising
edge picks a random non-empty photo and switches to focus mode, any other
tracked hand steers the rotation. -/
def handleGesture (gesture lastGesture : GestureType)
    (photos : List PhotoData) (x rnd : ℚ) : GestureEffects :=
  { setExploded :=
      if gesture = .open_palm then some true
      else if lastGesture = .open_palm then some false
      else Option.none
    setTwinkling :=
      if gesture = .closed_fist then some true
      else if lastGesture = .closed_fist then some false
      else Option.none
    focusRequest :=
      if gesture = .victory ∧ lastGesture ≠ .victory then
        let validPhotos := photos.filter (fun p => !p.isEmpty)
        if validPhotos.length > 0 then
          validPhotos.get? (Int.toNat ⌊rnd * (validPhotos.length : ℚ)⌋)
        else Option.none
      else Option.none
    setMode :=
      if gesture = .victory ∧ lastGesture ≠ .victory then
        if (photos.filter (fun p => !p.isEmpty)).length > 0 then some .focus
        else Option.none
      else Option.none
    gestureX :=
      if gesture = .closed_fist then 3
      else if gesture ≠ .none then (x - 1 / 2) * 4
      else 0
    lastGesture := gesture }

/-- C9: the jump-to-random-photo request fires exactly on a Victory rising
edge with at least one non-empty photo: the selected photo (which is then
always a non-empty one) and the switch to focus mode happen iff the
current gesture is Victory, the previous gesture was not Victory, and the
non-empty photo list is non-empty; a sustained Victory never re-fires. -/
theorem c9_victory_rising_edge (gesture lastGesture : GestureType)
    (photos : List PhotoData) (x rnd : ℚ) (hrnd : 0 ≤ rnd ∧ rnd < 1) :
    ((handleGesture gesture lastGesture photos x rnd).focusRequest.isSome
      ↔ gesture = .victory ∧ lastGesture ≠ .victory
          ∧ (photos.filter (fun p => !p.isEmpty)).length > 0)
    ∧ ((handleGesture gesture lastGesture photos x rnd).setMode = some .focus
      ↔ gesture = .victory ∧ lastGesture ≠ .victory
          ∧ (photos.filter (fun p => !p.isEmpty)).length > 0)
    ∧ (lastGesture = .victory →
        (handleGesture gesture lastGesture photos x rnd).focusRequest = Option.none
        ∧ (handleGesture gesture lastGesture photos x rnd).setMode = Option.none)
    ∧ (∀ p, (handleGesture gesture lastGesture photos x rnd).focusRequest = some p →
        p.isEmpty = false) := by
  have hidx : ∀ len : ℕ, 0 < len →
      Int.toNat ⌊rnd * (len : ℚ)⌋ < len := by
    intro len hlen
    have h0 : (0 : ℤ) ≤ ⌊rnd * (len : ℚ)⌋ := by
      apply Int.floor_nonneg.mpr
      have : (0 : ℚ) ≤ (len : ℚ) := by positivity
      nlinarith [hrnd.1]
    have hlt : ⌊rnd * (len : ℚ)⌋ < (len : ℤ) := by
      apply Int.floor_lt.mpr
      push_cast
      nlinarith [hrnd.2, show (0 : ℚ) < (len : ℚ) by exact_mod_cast hlen]
    omega
  refine ⟨?_, ?_, ?_, ?_⟩
  · constructor
    · intro h
      by_contra hcon
      simp only [handleGesture] at h
      rcases Decidable.em (gesture = .victory ∧ lastGesture ≠ .victory) with he | he
      · rw [if_pos he] at h
        rcases Nat.eq_zero_or_pos (photos.filter (fun p => !p.isEmpty)).length with h0 | h0
        · simp only [h0] at h
          simp at h
        · exact hcon ⟨he.1, he.2, h0⟩
      · rw [if_neg he] at h
        simp at h
    · rintro ⟨hg, hl, hlen⟩
      simp only [handleGesture, if_pos (And.intro hg hl), if_pos hlen]
      rw [List.get?_eq_getElem?]
      rw [List.getElem?_eq_getElem (hidx _ hlen)]
      simp
  · simp only [handleGesture]
    rcases Decidable.em (gesture = .victory ∧ lastGesture ≠ .victory) with he | he
    · rw [if_pos he]
      split_ifs with hlen
      · simp only [true_iff]
        exact ⟨he.1, he.2, hlen⟩
      · simp only [false_iff, not_and]
        intro _ _
        omega
    · rw [if_neg he]
      constructor
      · intro hcon
        exact Option.noConfusion hcon
      · intro hcon
        exact absurd ⟨hcon.1, hcon.2.1⟩ he
  · intro hlast
    constructor <;>
    · simp only [handleGesture]
      rw [if_neg]
      rintro ⟨_, hne⟩
      exact hne hlast
  · intro p hp
    simp only [handleGesture] at hp
    rcases Decidable.em (gesture = .victory ∧ lastGesture ≠ .victory) with he | he
    · rw [if_pos he] at hp
      split_ifs at hp with hlen
      · have hmem : p ∈ photos.filter (fun q => !q.isEmpty) := by
          exact List.get?_mem hp
        have := (List.mem_filter.mp hmem).2
        simpa using this
    · rw [if_neg he] at hp
      exact Option.noConfusion hp

/-- C9 witness: a Victory rising edge over a single non-empty photo fires
the request (and a sustained Victory, checked through the same theorem at
lastGesture = Victory, cannot). -/
theorem c9_victory_rising_edge_witness :
    ((0 : ℚ) ≤ 0 ∧ (0 : ℚ) < 1)
    ∧ ((handleGesture .victory .none [⟨ "a", "u", 0, false ⟩] 0 0).focusRequest.isSome
      ↔ GestureType.victory = .victory ∧ GestureType.none ≠ .victory
          ∧ (List.filter (fun p => !p.isEmpty) [(⟨ "a", "u", 0, false ⟩ : PhotoData)]).length > 0) :=
  ⟨⟨le_refl 0, by norm_num⟩,
   (c9_victory_rising_edge .victory .none [⟨ "a", "u", 0, false ⟩] 0 0
      ⟨le_refl 0, by norm_num⟩).1⟩

end ChristmasTree
